import Mathlib

/-!
Verification of the AgentSocial agent behavior simulation engine.

This file gives a shallow embedding, over the rationals, of the core
subsystems of the repository:

* the personality drift engine (`packages/bulletin_board/agents/personality_drift.py`),
* the content moderation engine (`packages/bulletin_board/agents/moderation_system.py`),
* the file-based memory store (`packages/bulletin_board/memory/memory_system.py`),
* the response decision engine (`packages/bulletin_board/agents/personality_system.py`),

and proves or refutes the specification claims about them.  Python floats
are modelled as rationals, timestamps as natural numbers, random draws as
explicit parameters, and the file system as association lists from file
names to contents.
-/

namespace AgentSocial

/-- Clamp to the unit interval, as the Python `max(0.0, min(1.0, v))`. -/
def clamp01 (v : ℚ) : ℚ := max 0 (min 1 v)

/-- Clamp to the bipolar interval, as the Python `max(-1.0, min(1.0, v))`. -/
def clampBi (v : ℚ) : ℚ := max (-1) (min 1 v)

/-! ## Personality drift engine

Embedding of `PersonalityDriftEngine` from
`packages/bulletin_board/agents/personality_drift.py`.  The twelve traits
of `PersonalityState` are modelled as rational-valued fields; the Python
`setattr` / `getattr` dynamic dispatch over trait name strings becomes a
`Trait` enumeration with explicit get and set functions. -/

/-- Trait names used by the dynamic trait dispatch of the drift engine. -/
inductive Trait
  | energy_level
  | formality
  | verbosity
  | chaos_tolerance
  | positivity
  | aggression
  | supportiveness
  | humor_tendency
  | analytical_depth
  | extroversion
  | trust_level
  | conflict_avoidance
deriving DecidableEq, Fintype

/-- State of the `PersonalityState` dataclass.  Timestamps are abstract
natural numbers standing for the `datetime.now()` values the Python code
writes. -/
structure PersonalityState where
  agent_id : String
  timestamp : ℕ
  energy_level : ℚ
  formality : ℚ
  verbosity : ℚ
  chaos_tolerance : ℚ
  positivity : ℚ
  aggression : ℚ
  supportiveness : ℚ
  humor_tendency : ℚ
  analytical_depth : ℚ
  extroversion : ℚ
  trust_level : ℚ
  conflict_avoidance : ℚ
  total_interactions : ℕ
  last_major_shift : Option ℕ
  drift_velocity : ℚ
deriving DecidableEq

/-- Embedding of `getattr(state, trait)` for the twelve traits. -/
def PersonalityState.get (s : PersonalityState) : Trait → ℚ
  | .energy_level => s.energy_level
  | .formality => s.formality
  | .verbosity => s.verbosity
  | .chaos_tolerance => s.chaos_tolerance
  | .positivity => s.positivity
  | .aggression => s.aggression
  | .supportiveness => s.supportiveness
  | .humor_tendency => s.humor_tendency
  | .analytical_depth => s.analytical_depth
  | .extroversion => s.extroversion
  | .trust_level => s.trust_level
  | .conflict_avoidance => s.conflict_avoidance

/-- Embedding of `setattr(state, trait, v)` for the twelve traits. -/
def PersonalityState.set (s : PersonalityState) : Trait → ℚ → PersonalityState
  | .energy_level, v => { s with energy_level := v }
  | .formality, v => { s with formality := v }
  | .verbosity, v => { s with verbosity := v }
  | .chaos_tolerance, v => { s with chaos_tolerance := v }
  | .positivity, v => { s with positivity := v }
  | .aggression, v => { s with aggression := v }
  | .supportiveness, v => { s with supportiveness := v }
  | .humor_tendency, v => { s with humor_tendency := v }
  | .analytical_depth, v => { s with analytical_depth := v }
  | .extroversion, v => { s with extroversion := v }
  | .trust_level, v => { s with trust_level := v }
  | .conflict_avoidance, v => { s with conflict_avoidance := v }

/-- Traits declared with range [-1, 1]; the membership test of
`_apply_influence` (`trait in ["aggression", "supportiveness",
"humor_tendency", "analytical_depth"]`). -/
def Trait.isBipolar : Trait → Bool
  | .aggression | .supportiveness | .humor_tendency | .analytical_depth => true
  | _ => false

/-- Range clamp chosen by `_apply_influence` based on the trait name. -/
def clampTrait (t : Trait) (v : ℚ) : ℚ :=
  if t.isBipolar then clampBi v else clamp01 v

/-- Declared range of a trait value, as a proposition. -/
def TraitOK (t : Trait) (v : ℚ) : Prop :=
  if t.isBipolar then -1 ≤ v ∧ v ≤ 1 else 0 ≤ v ∧ v ≤ 1

instance (t : Trait) (v : ℚ) : Decidable (TraitOK t v) := by
  unfold TraitOK; infer_instance

/-- Every trait of the state lies in its declared range. -/
def ValidState (s : PersonalityState) : Prop := ∀ t : Trait, TraitOK t (s.get t)

instance (s : PersonalityState) : Decidable (ValidState s) :=
  Fintype.decidableForallFintype

/-- Drift engine constant `self.stability_factor = 0.95`. -/
def stability_factor : ℚ := 19 / 20

/-- Drift engine constant `self.reversion_rate = 0.001`. -/
def reversion_rate : ℚ := 1 / 1000

/-- Trait-impact table of `_create_interaction_influence`. -/
def interaction_trait_impacts (ty : String) (sentiment intensity : ℚ) :
    List (Trait × ℚ) :=
  if ty = "argument" then
    [(.aggression, sentiment * intensity * (1 / 10)),
     (.trust_level, -|sentiment| * intensity * (1 / 20)),
     (.conflict_avoidance, |sentiment| * intensity * (1 / 20))]
  else if ty = "collaboration" then
    [(.supportiveness, intensity * (1 / 10)),
     (.trust_level, intensity * (1 / 20)),
     (.positivity, sentiment * intensity * (1 / 20))]
  else if ty = "joke" then
    [(.humor_tendency, intensity * (1 / 10)),
     (.positivity, sentiment * intensity * (1 / 20)),
     (.energy_level, intensity * (1 / 50))]
  else if ty = "debate" then
    [(.analytical_depth, intensity * (1 / 10)),
     (.verbosity, intensity * (1 / 20)),
     (.formality, intensity * (1 / 50))]
  else
    [(.energy_level, sentiment * intensity * (1 / 50)),
     (.positivity, sentiment * intensity * (1 / 20))]

/-- Trait-impact table of `_create_incident_influence`. -/
def incident_trait_impacts (ty : String) (impact : ℚ) : List (Trait × ℚ) :=
  if ty = "system_crash" then
    [(.chaos_tolerance, impact * (1 / 5)),
     (.trust_level, -impact * (1 / 10)),
     (.analytical_depth, impact * (1 / 10))]
  else if ty = "successful_collaboration" then
    [(.supportiveness, impact * (1 / 5)),
     (.positivity, impact * (3 / 20)),
     (.trust_level, impact * (1 / 10))]
  else if ty = "heated_debate" then
    [(.aggression, impact * (3 / 20)),
     (.analytical_depth, impact * (1 / 10)),
     (.conflict_avoidance, -impact * (1 / 10))]
  else if ty = "meme_viral" then
    [(.humor_tendency, impact * (1 / 5)),
     (.extroversion, impact * (1 / 10)),
     (.energy_level, impact * (1 / 10))]
  else
    [(.chaos_tolerance, impact * (1 / 10)),
     (.energy_level, impact * (1 / 20))]

/-- Loop body of `_apply_influence`: each impact is scaled by
`magnitude_multiplier * (1 - stability_factor * 0.5)`, added, and the
touched trait is clamped to its declared range. -/
def applyImpacts (s : PersonalityState) (impacts : List (Trait × ℚ))
    (mult : ℚ) : PersonalityState :=
  impacts.foldl
    (fun st ti =>
      st.set ti.1
        (clampTrait ti.1 (st.get ti.1 + ti.2 * mult * (1 - stability_factor * (1 / 2)))))
    s

/-- Embedding of `_apply_influence`: trait impacts, then the interaction
count bump and the timestamp refresh. -/
def apply_influence (s : PersonalityState) (impacts : List (Trait × ℚ))
    (mult : ℚ) (now : ℕ) : PersonalityState :=
  let s' := applyImpacts s impacts mult
  { s' with total_interactions := s'.total_interactions + 1, timestamp := now }

/-- Traits averaged by `_calculate_drift_velocity` (note: the Python list
omits analytical_depth, extroversion, trust_level and conflict_avoidance). -/
def velocityTraits : List Trait :=
  [.energy_level, .formality, .verbosity, .chaos_tolerance, .positivity,
   .aggression, .supportiveness, .humor_tendency]

/-- Embedding of `_calculate_drift_velocity`: mean absolute change over
`velocityTraits`. -/
def calculate_drift_velocity (o n : PersonalityState) : ℚ :=
  (velocityTraits.map (fun t => |n.get t - o.get t|)).sum / 8

/-- Key traits checked by `_is_major_shift`. -/
def majorTraits : List Trait := [.chaos_tolerance, .aggression, .trust_level]

/-- Embedding of `_is_major_shift`. -/
def is_major_shift (o n : PersonalityState) : Bool :=
  majorTraits.any (fun t => decide ((1 / 5 : ℚ) < |n.get t - o.get t|)) ||
    decide ((1 / 10 : ℚ) < calculate_drift_velocity o n)

/-- Embedding of `apply_interaction` (state-transformer part; persistence
to disk is identity on the returned state). -/
def apply_interaction (s : PersonalityState) (ty : String)
    (other : Option String) (sentiment intensity : ℚ) (now : ℕ) :
    PersonalityState :=
  let _ := other
  let ns := apply_influence s (interaction_trait_impacts ty sentiment intensity) 1 now
  if is_major_shift s ns then { ns with last_major_shift := some now } else ns

/-- Embedding of `apply_incident`: influence applied with
`magnitude_multiplier=2.0`, and the major-shift timestamp always set. -/
def apply_incident (s : PersonalityState) (ty : String) (impact : ℚ)
    (now : ℕ) : PersonalityState :=
  let ns := apply_influence s (incident_trait_impacts ty impact) 2 now
  { ns with last_major_shift := some now }

/-- Traits moved toward the baseline by `_drift_toward` (only the eight
unit-range traits; the four bipolar traits are not in the Python list). -/
def driftTraits : List Trait :=
  [.energy_level, .formality, .verbosity, .chaos_tolerance, .positivity,
   .extroversion, .trust_level, .conflict_avoidance]

/-- Embedding of `_drift_toward`: each listed trait moves by
`(target - current) * rate`, values read from the incoming state, with no
clamping. -/
def drift_toward (s target : PersonalityState) (rate : ℚ) (now : ℕ) :
    PersonalityState :=
  let s' := driftTraits.foldl
    (fun st t => st.set t (s.get t + (target.get t - s.get t) * rate)) s
  { s' with timestamp := now }

/-- Embedding of `_add_random_drift`.  The Python code draws
`random.gauss(0, 0.0005 * hours)` for humor_tendency and analytical_depth;
the two draws are modelled as the explicit parameters `jh` and `ja`. -/
def add_random_drift (s : PersonalityState) (jh ja : ℚ) : PersonalityState :=
  let s1 := s.set .humor_tendency (clampBi (s.get .humor_tendency + jh))
  s1.set .analytical_depth (clampBi (s1.get .analytical_depth + ja))

/-- Embedding of `apply_time_drift`: drift toward the stored baseline at
rate `reversion_rate * hours`, random drift on the two jitter traits, then
the drift velocity recomputed against the pre-drift state. -/
def apply_time_drift (s baseline : PersonalityState) (hours jh ja : ℚ)
    (now : ℕ) : PersonalityState :=
  let ns := drift_toward s baseline (reversion_rate * hours) now
  let ns := add_random_drift ns jh ja
  { ns with drift_velocity := calculate_drift_velocity s ns }

/-- Embedding of `_create_default_state`. -/
def create_default_state (agent_id : String) (now : ℕ) : PersonalityState :=
  { agent_id := agent_id
    timestamp := now
    energy_level := 1 / 2
    formality := 1 / 2
    verbosity := 1 / 2
    chaos_tolerance := 1 / 2
    positivity := 1 / 2
    aggression := 0
    supportiveness := 0
    humor_tendency := 0
    analytical_depth := 0
    extroversion := 1 / 2
    trust_level := 1 / 2
    conflict_avoidance := 1 / 2
    total_interactions := 0
    last_major_shift := none
    drift_velocity := 0 }

/-- One drift-engine operation, with the timestamp and the random jitter
draws made explicit. -/
inductive DriftOp
  | interaction (ty : String) (other : Option String)
      (sentiment intensity : ℚ) (now : ℕ)
  | incident (ty : String) (impact : ℚ) (now : ℕ)
  | timeDrift (hours jh ja : ℚ) (now : ℕ)

/-- Input constraints for a drift operation: the ranges demanded by the
claim, plus the bound `hours ≤ 1000` (equivalently
`reversion_rate * hours ≤ 1`) under which the unclamped `_drift_toward`
step cannot overshoot. -/
def DriftOpOK : DriftOp → Prop
  | .interaction _ _ sentiment intensity _ =>
      -1 ≤ sentiment ∧ sentiment ≤ 1 ∧ 0 ≤ intensity ∧ intensity ≤ 1
  | .incident _ impact _ => 0 ≤ impact ∧ impact ≤ 1
  | .timeDrift hours _ _ _ => 0 ≤ hours ∧ hours ≤ 1000

instance (op : DriftOp) : Decidable (DriftOpOK op) := by
  cases op <;> (unfold DriftOpOK; infer_instance)

/-- One step of the drift engine.  In a run consisting only of drift
operations, the baselines directory is never written, so the stored
baseline is a fixed state passed as a parameter. -/
def stepDriftOp (baseline s : PersonalityState) : DriftOp → PersonalityState
  | .interaction ty other sentiment intensity now =>
      apply_interaction s ty other sentiment intensity now
  | .incident ty impact now => apply_incident s ty impact now
  | .timeDrift hours jh ja now => apply_time_drift s baseline hours jh ja now

/-- Run a sequence of drift operations from a starting state. -/
def runDriftOps (baseline : PersonalityState) (ops : List DriftOp)
    (s : PersonalityState) : PersonalityState :=
  ops.foldl (stepDriftOp baseline) s

/-! ## Content moderation engine

Embedding of `ContentModerator` from
`packages/bulletin_board/agents/moderation_system.py`.  The Python code
matches content against fixed regular expressions via `re.search` and
`re.sub`; a small backtracking matcher over a regex syntax sufficient for
those fixed patterns is defined here, with Python semantics for word
boundaries, `\s`, `\w`, `.` and case-insensitive literals. -/

/-- Word characters in the sense of the Python `\b` and `\w` (ASCII). -/
def isWordChar (c : Char) : Bool := c.isAlphanum || c == '_'

/-- Whitespace characters in the sense of the Python `\s`. -/
def isSpaceChar (c : Char) : Bool :=
  c == ' ' || c == '\t' || c == '\n' || c == '\r' || c == '\x0b' || c == '\x0c'

/-- Regex syntax covering the fixed moderation patterns: case-insensitive
and case-sensitive literal characters, concatenation, alternation, word
boundary, and one-or-more / zero-or-more over a character class. -/
inductive RE
  | eps
  | chr (c : Char)
  | chrCS (c : Char)
  | seq (a b : RE)
  | alt (a b : RE)
  | bnd
  | plusCls (p : Char → Bool)
  | starCls (p : Char → Bool)

/-- Python word-boundary test between the previous character and the rest
of the input. -/
def atBoundary (prev : Option Char) (s : List Char) : Bool :=
  let a := match prev with | some c => isWordChar c | none => false
  let b := match s with | c :: _ => isWordChar c | [] => false
  a != b

/-- States reachable by consuming zero or more class characters, longest
first (greedy), each state being the last consumed character and the
remaining input. -/
def starRuns (p : Char → Bool) : Option Char → List Char →
    List (Option Char × List Char)
  | prev, [] => [(prev, [])]
  | prev, c :: rest =>
      if p c then starRuns p (some c) rest ++ [(prev, c :: rest)]
      else [(prev, c :: rest)]

/-- States reachable by consuming one or more class characters, longest
first (greedy). -/
def plusRuns (p : Char → Bool) : Option Char → List Char →
    List (Option Char × List Char)
  | _, [] => []
  | _, c :: rest => if p c then starRuns p (some c) rest else []

/-- Backtracking matcher: all states after matching the pattern at the
start of the input, in Python preference order (left alternative first,
greedy repetition). -/
def reRun : RE → Option Char → List Char → List (Option Char × List Char)
  | .eps, prev, s => [(prev, s)]
  | .chr _, _, [] => []
  | .chr c, _, x :: rest => if x.toLower == c then [(some x, rest)] else []
  | .chrCS _, _, [] => []
  | .chrCS c, _, x :: rest => if x == c then [(some x, rest)] else []
  | .seq a b, prev, s => (reRun a prev s).flatMap (fun pr => reRun b pr.1 pr.2)
  | .alt a b, prev, s => reRun a prev s ++ reRun b prev s
  | .bnd, prev, s => if atBoundary prev s then [(prev, s)] else []
  | .plusCls p, prev, s => plusRuns p prev s
  | .starCls p, prev, s => starRuns p prev s

/-- Does the pattern match at some position of the input, scanning left to
right as `re.search` does. -/
def searchAux (r : RE) : Option Char → List Char → Bool
  | prev, [] => !(reRun r prev []).isEmpty
  | prev, c :: rest =>
      !(reRun r prev (c :: rest)).isEmpty || searchAux r (some c) rest

/-- Embedding of `re.search(pattern, content) is not None`. -/
def reSearch (r : RE) (s : String) : Bool := searchAux r none s.toList

/-- Case-insensitive literal (all fixed patterns are lower-case). -/
def lit (s : String) : RE :=
  s.toList.foldr (fun c acc => RE.seq (RE.chr c) acc) RE.eps

/-- Case-sensitive literal. -/
def litCS (s : String) : RE :=
  s.toList.foldr (fun c acc => RE.seq (RE.chrCS c) acc) RE.eps

/-- Concatenation of a pattern list. -/
def reSeqs (l : List RE) : RE := l.foldr RE.seq RE.eps

/-- Python `\s+`. -/
def wsPlus : RE := RE.plusCls isSpaceChar

/-- Python `\w+`. -/
def wordPlus : RE := RE.plusCls isWordChar

/-- Python `.*` (the dot does not match a newline). -/
def anyStar : RE := RE.starCls (fun c => c != '\n')

/-- Leftmost match and replacement of every non-overlapping occurrence, as
`re.sub`; the fuel argument bounds the scan by the input length. -/
def subAux (r : RE) (repl : List Char) : ℕ → Option Char → List Char →
    List Char
  | 0, _, s => s
  | _ + 1, _, [] => []
  | fuel + 1, prev, c :: rest =>
      match (reRun r prev (c :: rest)).head? with
      | some pr => repl ++ subAux r repl fuel pr.1 pr.2
      | none => c :: subAux r repl fuel (some c) rest

/-- Embedding of `re.sub(pattern, repl, content)` for the fixed patterns
(which never match the empty string). -/
def reSub (r : RE) (repl : String) (s : String) : String :=
  String.mk (subAux r repl.toList (s.length + 1) none s.toList)

/-- Blocked pattern `\b(malicious|exploit|hack\s+into)\b`. -/
def blockedSecurity : RE :=
  reSeqs [RE.bnd,
    RE.alt (lit "malicious")
      (RE.alt (lit "exploit") (reSeqs [lit "hack", wsPlus, lit "into"])),
    RE.bnd]

/-- Blocked pattern `\b(rm\s+-rf\s+/|format\s+c:)\b`. -/
def blockedCommands : RE :=
  reSeqs [RE.bnd,
    RE.alt (reSeqs [lit "rm", wsPlus, lit "-rf", wsPlus, lit "/"])
      (reSeqs [lit "format", wsPlus, lit "c:"]),
    RE.bnd]

/-- Blocked pattern `@everyone|@here`. -/
def blockedPings : RE := RE.alt (lit "@everyone") (lit "@here")

/-- The `self.blocked_patterns` list, each with its display text. -/
def blocked_patterns : List (RE × String) :=
  [(blockedSecurity, "\\b(malicious|exploit|hack\\s+into)\\b"),
   (blockedCommands, "\\b(rm\\s+-rf\\s+/|format\\s+c:)\\b"),
   (blockedPings, "@everyone|@here")]

/-- Does the content match some hard-blocked pattern. -/
def matchesBlocked (content : String) : Bool :=
  blocked_patterns.any (fun pr => reSearch pr.1 content)

/-- Display text of the first blocked pattern that matches. -/
def firstBlockedPattern (content : String) : Option String :=
  ((blocked_patterns.filter (fun pr => reSearch pr.1 content)).map Prod.snd).head?

/-- The `self.modify_patterns` substitution table, in insertion order. -/
def modify_patterns : List (RE × String × String) :=
  [(reSeqs [RE.bnd, lit "wtf", RE.bnd], "what the fork", "\\bwtf\\b"),
   (reSeqs [RE.bnd, lit "shit", RE.bnd], "stuff", "\\bshit\\b"),
   (reSeqs [RE.bnd, lit "hell", RE.bnd], "heck", "\\bhell\\b"),
   (reSeqs [RE.bnd, lit "damn", RE.bnd], "dang", "\\bdamn\\b"),
   (lit "fuck", "frick", "fuck")]

/-- Profanity-substitution loop of `moderate_content`: each pattern found
in the original content is rewritten in the accumulated content, a reason
is recorded, and the rating drops to MILD. -/
def applyModifications (content : String) : String × Bool × List String :=
  modify_patterns.foldl
    (fun acc pr =>
      if reSearch pr.1 content then
        (reSub pr.1 pr.2.1 acc.1, true,
         acc.2.2 ++ ["Modified mild profanity: " ++ pr.2.2])
      else acc)
    (content, false, [])

/-- The `self.chaos_patterns` list. -/
def chaos_patterns : List RE :=
  [reSeqs [lit "yolo", anyStar, lit "prod"],
   reSeqs [lit "friday", anyStar, lit "deploy"],
   reSeqs [lit "test", anyStar, lit "production"],
   reSeqs [lit "who needs ", RE.alt (lit "tests") (lit "documentation")],
   lit "works on my machine"]

/-- The `self.quality_patterns` list. -/
def quality_patterns : List RE :=
  [reSeqs [lit "interesting", wsPlus, lit "approach"],
   reSeqs [lit "good", wsPlus, lit "point"],
   reSeqs [lit "learned", wsPlus, lit "something"],
   lit "helpful",
   reSeqs [lit "thanks", wsPlus, lit "for"]]

/-- Pattern `def\s+\w+|function\s+\w+|class\s+\w+` (searched without the
IGNORECASE flag, hence case-sensitive literals). -/
def codePattern : RE :=
  RE.alt (reSeqs [litCS "def", wsPlus, wordPlus])
    (RE.alt (reSeqs [litCS "function", wsPlus, wordPlus])
      (reSeqs [litCS "class", wsPlus, wordPlus]))

/-- Is the needle a leading segment of the haystack. -/
def startsWithList : List Char → List Char → Bool
  | [], _ => true
  | _ :: _, [] => false
  | a :: as, b :: bs => a == b && startsWithList as bs

/-- Case-sensitive substring containment, as the Python `in` on strings. -/
def containsSub (needle : List Char) : List Char → Bool
  | [] => startsWithList needle []
  | c :: rest => startsWithList needle (c :: rest) || containsSub needle rest

/-- Number of non-overlapping occurrences, as the Python `str.count`; the
fuel argument bounds the scan by the input length. -/
def countSubAux (needle : List Char) : ℕ → List Char → ℕ
  | 0, _ => 0
  | _ + 1, [] => 0
  | fuel + 1, c :: rest =>
      if startsWithList needle (c :: rest) then
        1 + countSubAux needle fuel ((c :: rest).drop needle.length)
      else countSubAux needle fuel rest

/-- Embedding of `content.count(needle)` for a non-empty needle. -/
def countSub (needle : String) (s : String) : ℕ :=
  countSubAux needle.toList (s.length + 1) s.toList

/-- Number of words of `content.split()`: maximal runs of non-whitespace. -/
def wordCountAux : Bool → List Char → ℕ
  | _, [] => 0
  | inWord, c :: rest =>
      if isSpaceChar c then wordCountAux false rest
      else (if inWord then 0 else 1) + wordCountAux true rest

/-- Embedding of `len(content.split())`. -/
def wordCount (s : String) : ℕ := wordCountAux false s.toList

/-- Embedding of `content.strip().lower()`. -/
def stripLower (s : String) : String :=
  String.mk
    ((((s.toList.dropWhile isSpaceChar).reverse.dropWhile isSpaceChar).reverse).map
      Char.toLower)

/-- Emoticon substrings counted by the chaos score. -/
def emojiTexts : List String := [":)", ":(", ":D", "xD", ":P", ";)", "o_O", "^_^"]

/-- Low-effort exact replies penalised by the quality score. -/
def lowEffortTexts : List String := ["lol", "lmao", "k", "ok", "nice", "cool"]

/-- Embedding of `_calculate_chaos_score` (0 to 100). -/
def calculate_chaos_score (content : String) : ℚ :=
  let score0 : ℚ :=
    20 * ((chaos_patterns.filter (fun r => reSearch r content)).length : ℚ)
  let upperCount : ℚ := ((content.toList.filter Char.isUpper).length : ℚ)
  let capsFrac : ℚ := upperCount / (max content.length 1 : ℕ)
  let score1 := if (3 / 10 : ℚ) < capsFrac then score0 + capsFrac * 30 else score0
  let punctCount : ℕ := countSub "!" content + countSub "?" content
  let score2 :=
    if 5 < punctCount then score1 + min ((punctCount : ℚ) * 5) 30 else score1
  let emojiCount : ℕ := (emojiTexts.map (fun e => countSub e content)).sum
  let score3 :=
    if 3 < emojiCount then score2 + min ((emojiCount : ℚ) * 5) 20 else score2
  min score3 100

/-- Embedding of `_calculate_quality_score` (0 to 100, starting at 50). -/
def calculate_quality_score (content : String) : ℚ :=
  let score0 : ℚ :=
    50 + 15 * ((quality_patterns.filter (fun r => reSearch r content)).length : ℚ)
  let wc := wordCount content
  let score1 :=
    if 10 < wc ∧ wc < 100 then score0 + 10
    else if 200 < wc then score0 + 5
    else if wc < 5 then score0 - 20
    else score0
  let score2 :=
    if containsSub "```".toList content.toList || reSearch codePattern content
    then score1 + 20 else score1
  let score3 :=
    if lowEffortTexts.contains (stripLower content) then score2 - 30 else score2
  max 0 (min score3 100)

/-- Rating levels of the `ContentRating` enum. -/
inductive ContentRating
  | safe | mild | moderate | flagged | blocked
deriving DecidableEq

/-- Actions of the `ModerationAction` enum. -/
inductive ModerationAction
  | approve | modify | warn | hold | reject
deriving DecidableEq

/-- Result record of `moderate_content`. -/
structure ModerationResult where
  action : ModerationAction
  rating : ContentRating
  modified_content : Option String
  reasons : List String
  suggestions : List String
deriving DecidableEq

/-- Per-agent record of the `AgentBehaviorScore` dataclass. -/
structure AgentBehaviorScore where
  agent_id : String
  chaos_score : ℚ
  quality_score : ℚ
  warning_count : ℕ
  last_warning : Option ℕ
  cooldown_until : Option ℕ
deriving DecidableEq

/-- Mutable state of a `ContentModerator`: the per-agent score map (an
insertion-ordered association list, as a Python dict) and the global chaos
level. -/
structure ModeratorState where
  agent_scores : List (String × AgentBehaviorScore)
  global_chaos_level : ℚ
deriving DecidableEq

/-- State of a freshly constructed `ContentModerator`. -/
def initialModeratorState : ModeratorState := { agent_scores := [], global_chaos_level := 50 }

/-- Constant `self.max_chaos_threshold = 75.0`. -/
def max_chaos_threshold : ℚ := 75

/-- Fresh behavior score created on first sight of an agent. -/
def defaultBehaviorScore (agent_id : String) : AgentBehaviorScore :=
  { agent_id := agent_id, chaos_score := 50, quality_score := 50,
    warning_count := 0, last_warning := none, cooldown_until := none }

/-- Insert the default entry for an unknown agent at the end of the map. -/
def ensureScore (l : List (String × AgentBehaviorScore)) (agent_id : String) :
    List (String × AgentBehaviorScore) :=
  if (l.lookup agent_id).isSome then l else l ++ [(agent_id, defaultBehaviorScore agent_id)]

/-- In-place update of one entry of the score map. -/
def updateEntry (l : List (String × AgentBehaviorScore)) (agent_id : String)
    (f : AgentBehaviorScore → AgentBehaviorScore) :
    List (String × AgentBehaviorScore) :=
  l.map (fun p => if p.1 == agent_id then (p.1, f p.2) else p)

/-- Embedding of `_update_agent_score`: exponential smoothing of the
rolling scores (`new = old * 0.7 + sample * 0.3`) followed by the global
chaos level recomputed as the mean chaos score over all known agents. -/
def update_agent_score (st : ModeratorState) (agent_id : String)
    (chaos quality : ℚ) : ModeratorState :=
  let scores0 := ensureScore st.agent_scores agent_id
  let scores1 := updateEntry scores0 agent_id (fun sc =>
    { sc with
      chaos_score := sc.chaos_score * (7 / 10) + chaos * (3 / 10)
      quality_score := sc.quality_score * (7 / 10) + quality * (3 / 10) })
  let chaosList := scores1.map (fun p => p.2.chaos_score)
  let g := if chaosList.isEmpty then st.global_chaos_level
           else chaosList.sum / (chaosList.length : ℚ)
  { agent_scores := scores1, global_chaos_level := g }

/-- Embedding of `_determine_action`, reading the (already updated) global
chaos level and agent score. -/
def determine_action (globalChaos : ℚ) (ascore : Option AgentBehaviorScore)
    (chaos quality : ℚ) (rating : ContentRating) : ModerationAction :=
  let defaultBranch : ModerationAction :=
    if 50 < quality ∨ (chaos < 60 ∧ 30 < quality) then .approve else .modify
  if rating = .mild ∨ rating = .moderate then
    if 40 < quality then .approve else .modify
  else if max_chaos_threshold < globalChaos ∧ 60 < chaos then .warn
  else if max_chaos_threshold < globalChaos ∧ quality < 40 then .hold
  else
    match ascore with
    | some sc =>
        if 5 < sc.warning_count ∧ (50 < chaos ∨ quality < 40) then .hold
        else if 80 < sc.chaos_score then .warn
        else if sc.quality_score < 30 then .warn
        else defaultBranch
    | none => defaultBranch

/-- Embedding of `moderate_content`: blocked-pattern short-circuit, then
profanity substitution, content scoring, the rolling-score and global
chaos update, the cooldown check, and the decision table.  The current
time is an explicit parameter standing for `datetime.now()`. -/
def moderate_content (st : ModeratorState) (now : ℕ) (content agent_id : String) :
    ModerationResult × ModeratorState :=
  if matchesBlocked content then
    ({ action := .reject, rating := .blocked, modified_content := none,
       reasons := ["Blocked pattern detected: " ++
         ((firstBlockedPattern content).getD "")],
       suggestions := ["Avoid potentially harmful content"] }, st)
  else
    let mods := applyModifications content
    let modified := mods.1
    let rating : ContentRating := if mods.2.1 then .mild else .safe
    let reasons := mods.2.2
    let chaos := calculate_chaos_score content
    let quality := calculate_quality_score content
    let st' := update_agent_score st agent_id chaos quality
    let ascore := st'.agent_scores.lookup agent_id
    let inCooldown : Bool :=
      match ascore with
      | some sc => match sc.cooldown_until with
        | some t => decide (now < t)
        | none => false
      | none => false
    if inCooldown then
      ({ action := .hold, rating := .flagged, modified_content := some modified,
         reasons := reasons ++ ["Agent in cooldown period"],
         suggestions := ["Take a break, touch grass"] }, st')
    else
      let action := determine_action st'.global_chaos_level ascore chaos quality rating
      let suggestions :=
        (if 70 < chaos then ["Consider toning down the chaos a bit"] else []) ++
        (if quality < 30 then ["Try adding more substance to your posts"] else [])
      ({ action := action, rating := rating,
         modified_content := if action = .reject then none else some modified,
         reasons := reasons, suggestions := suggestions }, st')

/-- Embedding of `apply_cooldown`: set the cooldown expiry and bump the
warning count (duration in minutes added to the current time). -/
def apply_cooldown (st : ModeratorState) (now : ℕ) (agent_id : String)
    (duration_minutes : ℕ) : ModeratorState :=
  let scores0 := ensureScore st.agent_scores agent_id
  let scores1 := updateEntry scores0 agent_id (fun sc =>
    { sc with cooldown_until := some (now + duration_minutes * 60)
              warning_count := sc.warning_count + 1
              last_warning := some now })
  { st with agent_scores := scores1 }

/-! ## File-based memory store

Embedding of `FileMemorySystem` from
`packages/bulletin_board/memory/memory_system.py`.  Directories are
modelled as association lists from file name to file content (for the
incident registry) or to parsed records (for the relationship registry);
timestamps are natural numbers. -/

/-- Lower-case a string, as the Python `str.lower` (ASCII). -/
def lowerStr (s : String) : String := String.mk (s.toList.map Char.toLower)

/-- Case-insensitive substring containment, as `grep -i` on a literal
query without regex metacharacters. -/
def containsCI (needle hay : String) : Bool :=
  containsSub (lowerStr needle).toList (lowerStr hay).toList

/-- Embedding of the fallback `grep -l -i query <paths>` call of
`find_incident` run through `subprocess.run` without a shell: each path
argument is taken literally (no glob expansion) and contributes to the
output only when a file of exactly that name exists and its content
matches. -/
def grepListFiles (query : String) (paths : List String)
    (dir : List (String × String)) : List String :=
  paths.filter (fun p =>
    match dir.lookup p with
    | some content => containsCI query content
    | none => false)

/-- The single path argument the Python code passes to grep:
`str(self.incidents_dir / "*.md")`, the glob pattern as a literal file
name (file names are modelled relative to the incident directory). -/
def incidentsGlobArg : String := "*.md"

/-- Embedding of `find_incident`, returning the file the incident would
be loaded from (`_load_incident_from_file` is total on files written by
`store_incident`, so the result is `none` exactly when the Python
function returns `None`).  First the exact-ID probe for `{query}.md`,
then the grep fallback over the literal glob argument. -/
def find_incident (dir : List (String × String)) (query : String) :
    Option String :=
  if (dir.lookup (query ++ ".md")).isSome then some (query ++ ".md")
  else
    match grepListFiles query [incidentsGlobArg] dir with
    | [] => none
    | f :: _ => some f

/-- Record of the `RelationshipMemory` dataclass; affinity history entries
pair a timestamp with an affinity value. -/
structure RelationshipMemory where
  agent_id : String
  other_agent_id : String
  affinity_history : List (ℕ × ℚ)
  interaction_count : ℕ
  positive_interactions : ℕ
  negative_interactions : ℕ
  inside_jokes : List String
  shared_incidents : List String
deriving DecidableEq

/-- Canonical relationship key `"_".join(sorted([agent_id, other]))`;
Python string comparison is lexicographic by code point, matching the
`String` linear order. -/
def rel_id (a b : String) : String :=
  if b < a then b ++ "_" ++ a else a ++ "_" ++ b

/-- Fresh relationship record created on first update of a pair. -/
def newRelationship (agent_id other_agent_id : String) : RelationshipMemory :=
  { agent_id := agent_id, other_agent_id := other_agent_id,
    affinity_history := [], interaction_count := 0,
    positive_interactions := 0, negative_interactions := 0,
    inside_jokes := [], shared_incidents := [] }

/-- Record-level body of `update_relationship`: counters, the damped
affinity append, the 100-entry ring truncation, and the optional
shared-incident and inside-joke appends (a `None` or empty-string
argument is falsy in Python and skipped). -/
def updateRelRecord (r : RelationshipMemory) (sentiment : ℚ)
    (shared_incident inside_joke : Option String) (now : ℕ) :
    RelationshipMemory :=
  let r1 := { r with interaction_count := r.interaction_count + 1 }
  let r2 :=
    if (1 / 5 : ℚ) < sentiment then
      { r1 with positive_interactions := r1.positive_interactions + 1 }
    else if sentiment < -(1 / 5 : ℚ) then
      { r1 with negative_interactions := r1.negative_interactions + 1 }
    else r1
  let current_affinity := ((r.affinity_history.getLast?).map Prod.snd).getD 0
  let new_affinity := clampBi (current_affinity + sentiment * (1 / 10))
  let hist0 := r.affinity_history ++ [(now, new_affinity)]
  let hist := if 100 < hist0.length then hist0.drop (hist0.length - 100) else hist0
  let r3 := { r2 with affinity_history := hist }
  let r4 :=
    match shared_incident with
    | some si =>
        if si ≠ "" ∧ ¬ r3.shared_incidents.contains si then
          { r3 with shared_incidents := r3.shared_incidents ++ [si] }
        else r3
    | none => r3
  match inside_joke with
  | some j =>
      if j ≠ "" ∧ ¬ r4.inside_jokes.contains j then
        let js := r4.inside_jokes ++ [j]
        { r4 with inside_jokes := if 20 < js.length then js.drop (js.length - 20) else js }
      else r4
  | none => r4

/-- Write a file of the relationship registry (overwrite or create). -/
def setRelFile (store : List (String × RelationshipMemory)) (key : String)
    (v : RelationshipMemory) : List (String × RelationshipMemory) :=
  if (store.lookup key).isSome then
    store.map (fun p => if p.1 == key then (key, v) else p)
  else store ++ [(key, v)]

/-- Embedding of `update_relationship`: read-modify-write of the file
keyed by the canonical pair id. -/
def update_relationship (store : List (String × RelationshipMemory))
    (agent_id other_agent_id : String) (sentiment : ℚ)
    (shared_incident inside_joke : Option String) (now : ℕ) :
    List (String × RelationshipMemory) :=
  let key := rel_id agent_id other_agent_id
  let r := (store.lookup key).getD (newRelationship agent_id other_agent_id)
  setRelFile store key (updateRelRecord r sentiment shared_incident inside_joke now)

/-- Embedding of `get_relationship`: load the file keyed by the canonical
pair id, `none` when absent. -/
def get_relationship (store : List (String × RelationshipMemory))
    (agent_id other_agent_id : String) : Option RelationshipMemory :=
  store.lookup (rel_id agent_id other_agent_id)

/-- One recorded `update_relationship` call: the two agents, the
sentiment, and the timestamp (incident and joke arguments omitted, i.e.
`None`). -/
structure RelUpdateCall where
  agent_id : String
  other_agent_id : String
  sentiment : ℚ
  now : ℕ

/-- Run a sequence of `update_relationship` calls on the empty registry. -/
def runRelUpdates (calls : List RelUpdateCall) :
    List (String × RelationshipMemory) :=
  calls.foldl
    (fun st c => update_relationship st c.agent_id c.other_agent_id c.sentiment none none c.now)
    []

/-! ## Response decision engine

Embedding of `PersonalityManager.should_agent_respond` and its modifier
helpers from `packages/bulletin_board/agents/personality_system.py`. -/

/-- Interest profile of an agent; the Python `trigger_keywords` dict is
modelled by its three accessed keys (`strong`, `moderate`, `avoid`). -/
structure InterestProfile where
  primary_topics : List (String × ℚ)
  subtopics : List (String × ℚ)
  trigger_strong : List String
  trigger_moderate : List String
  trigger_avoid : List String

/-- Behavior patterns of an agent (style strings kept as strings). -/
structure BehaviorPatterns where
  response_speed : String
  response_probability : ℚ
  thread_participation : ℚ
  peak_hours : List ℤ
  timezone_offset : ℤ
  debate_style : String
  humor_style : String
  criticism_style : String
  meme_generation_probability : ℚ

/-- One relationship entry of the relationship map. -/
structure PersonalityRelationship where
  agent_id : String
  affinity : ℚ
  interaction_style : String

/-- Relationship map of an agent. -/
structure RelationshipMap where
  allies : List PersonalityRelationship
  rivals : List PersonalityRelationship
  response_modifiers : List (String × ℚ)

/-- The parts of `AgentPersonality` consumed by the response decision. -/
structure AgentPersonality where
  agent_id : String
  display_name : String
  behavior : BehaviorPatterns
  interests : InterestProfile
  relationships : RelationshipMap

/-- Context dict of `should_agent_respond`, with the accessed keys;
`current_hour` is `none` when the key is absent (default 12). -/
structure ResponseContext where
  topics : List String
  keywords : List String
  author_agent_id : Option String
  current_hour : Option ℤ

/-- Embedding of `_calculate_interest_modifier`: topic boosts
`* (1 + weight * 0.5)`, then the strong / moderate / avoid keyword chain. -/
def calculate_interest_modifier (interests : InterestProfile)
    (topics keywords : List String) : ℚ :=
  let m1 := topics.foldl
    (fun m t =>
      match interests.primary_topics.lookup t with
      | some w => m * (1 + w * (1 / 2))
      | none => m) 1
  keywords.foldl
    (fun m k =>
      if interests.trigger_strong.contains k then m * (3 / 2)
      else if interests.trigger_moderate.contains k then m * (6 / 5)
      else if interests.trigger_avoid.contains k then m * (1 / 2)
      else m) m1

/-- Embedding of `_calculate_relationship_modifier`: a falsy author id
(absent or empty) gives 1.0, else the agent-specific override with
default 1.0. -/
def calculate_relationship_modifier (relationships : RelationshipMap)
    (author : Option String) : ℚ :=
  match author with
  | none => 1
  | some a => if a = "" then 1 else (relationships.response_modifiers.lookup a).getD 1

/-- Embedding of `_calculate_time_modifier`; `peak_hours[0]` on an empty
list raises IndexError in Python, modelled as `none`. -/
def calculate_time_modifier (peak_hours : List ℤ) (current_hour : ℤ) :
    Option ℚ :=
  if peak_hours.contains current_hour then some (13 / 10)
  else
    match peak_hours with
    | [] => none
    | h :: _ => if (current_hour - h).natAbs ≤ 2 then some (11 / 10) else some (4 / 5)

/-- Embedding of `should_agent_respond` for an agent with a configured
personality; the `random.random()` draw is the explicit parameter `r`,
and the result is `none` exactly when the Python call raises. -/
def should_agent_respond (p : AgentPersonality) (ctx : ResponseContext)
    (r : ℚ) : Option (Bool × ℚ) :=
  let base := p.behavior.response_probability
  let interestMod := calculate_interest_modifier p.interests ctx.topics ctx.keywords
  let relationshipMod := calculate_relationship_modifier p.relationships ctx.author_agent_id
  match calculate_time_modifier p.behavior.peak_hours (ctx.current_hour.getD 12) with
  | none => none
  | some timeMod =>
      let final_probability := min 1 (max 0 (base * interestMod * relationshipMod * timeMod))
      some (decide (r < final_probability), final_probability)

/-! ## Concrete inputs used by witnesses and counterexamples -/

/-- Drift-operation sequence within the bounds of the claims: a
collaboration interaction followed by a 24-hour time drift. -/
def opsInRange : List DriftOp :=
  [DriftOp.interaction "collaboration" (some "agent2") (4 / 5) (7 / 10) 1,
   DriftOp.timeDrift 24 0 0 2]

/-- Drift-operation sequence exhibiting the missing clamp of
`_drift_toward`: a full-impact system crash (pushing trust_level to
0.395), then a time drift of 10000 hours, whose reversion rate
`0.001 * 10000 = 10` overshoots the baseline. -/
def opsOvershoot : List DriftOp :=
  [DriftOp.incident "system_crash" 1 1, DriftOp.timeDrift 10000 0 0 2]

/-- Prior state with trust_level already at its upper bound. -/
def stateTrustAtBound : PersonalityState :=
  { create_default_state "agent1" 0 with trust_level := 1 }

/-- Prior state whose humor_tendency sits away from the default baseline. -/
def stateHumorHalf : PersonalityState :=
  { create_default_state "agent1" 0 with humor_tendency := 1 / 2 }

/-- Moderator state with agent "a" in cooldown until time 100. -/
def cooldownState : ModeratorState :=
  { agent_scores :=
      [("a", { agent_id := "a", chaos_score := 50, quality_score := 50,
               warning_count := 1, last_warning := some 0,
               cooldown_until := some 100 })],
    global_chaos_level := 50 }

/-- Incident file content as written by `store_incident`, whose
description mentions docker. -/
def incidentFileDocker : String :=
  "# Incident: The Docker Outage\n\n**ID**: inc_001\n**Timestamp**: 2026-01-01T00:00:00\n**Participants**: agent1, agent2\n\n## Description\n\nEveryone argued about docker compose for hours.\n\n## Outcome\n\nResolved by pinning versions.\n\n## Lessons Learned\n\n- Pin versions\n\n**Reference Count**: 0\n"

/-- Incident directory holding one stored incident and the index file. -/
def incidentDirDocker : List (String × String) :=
  [("inc_001.md", incidentFileDocker),
   ("index.json", "placeholder index content")]

/-- Configured personality used as response-decision witness input. -/
def personalityW : AgentPersonality :=
  { agent_id := "a", display_name := "Agent A",
    behavior :=
      { response_speed := "quick", response_probability := 1 / 2,
        thread_participation := 1 / 2, peak_hours := [12],
        timezone_offset := 0, debate_style := "analytical",
        humor_style := "dry", criticism_style := "gentle",
        meme_generation_probability := 3 / 10 },
    interests :=
      { primary_topics := [("ai", 1 / 2)], subtopics := [],
        trigger_strong := [], trigger_moderate := [], trigger_avoid := [] },
    relationships := { allies := [], rivals := [], response_modifiers := [] } }

/-- Context used as response-decision witness input. -/
def contextW : ResponseContext :=
  { topics := [], keywords := [], author_agent_id := none, current_hour := some 12 }

/-! ## Supporting lemmas for the drift engine -/

theorem get_set_same (s : PersonalityState) (t : Trait) (v : ℚ) :
    (s.set t v).get t = v := by
  cases t <;> rfl

theorem get_set_ne (s : PersonalityState) (t t' : Trait) (v : ℚ)
    (h : t' ≠ t) : (s.set t v).get t' = s.get t' := by
  cases t <;> cases t' <;> first | rfl | exact absurd rfl h

theorem traitOK_clampTrait (t : Trait) (v : ℚ) : TraitOK t (clampTrait t v) := by
  unfold TraitOK clampTrait clampBi clamp01
  cases h : t.isBipolar <;> simp only [h, Bool.false_eq_true, if_false, if_true] <;>
    exact ⟨le_max_left _ _, max_le (by norm_num) (min_le_left _ _)⟩

theorem valid_set (s : PersonalityState) (t : Trait) (v : ℚ)
    (hs : ValidState s) (hv : TraitOK t v) : ValidState (s.set t v) := by
  intro t'
  by_cases h : t' = t
  · subst h; rw [get_set_same]; exact hv
  · rw [get_set_ne _ _ _ _ h]; exact hs t'

theorem valid_applyImpacts (impacts : List (Trait × ℚ)) (s : PersonalityState)
    (mult : ℚ) (hs : ValidState s) : ValidState (applyImpacts s impacts mult) := by
  induction impacts generalizing s with
  | nil => exact hs
  | cons hd tl ih =>
      exact ih _ (valid_set _ _ _ hs (traitOK_clampTrait _ _))

theorem valid_apply_influence (s : PersonalityState) (impacts : List (Trait × ℚ))
    (mult : ℚ) (now : ℕ) (hs : ValidState s) :
    ValidState (apply_influence s impacts mult now) := by
  intro t
  have h := valid_applyImpacts impacts s mult hs t
  cases t <;> exact h

theorem get_apply_interaction (s : PersonalityState) (ty : String)
    (other : Option String) (sentiment intensity : ℚ) (now : ℕ) (t : Trait) :
    (apply_interaction s ty other sentiment intensity now).get t =
      (apply_influence s (interaction_trait_impacts ty sentiment intensity) 1 now).get t := by
  simp only [apply_interaction]
  split <;> cases t <;> rfl

theorem get_apply_incident (s : PersonalityState) (ty : String)
    (impact : ℚ) (now : ℕ) (t : Trait) :
    (apply_incident s ty impact now).get t =
      (apply_influence s (incident_trait_impacts ty impact) 2 now).get t := by
  simp only [apply_incident]
  cases t <;> rfl

theorem valid_apply_interaction (s : PersonalityState) (ty : String)
    (other : Option String) (sentiment intensity : ℚ) (now : ℕ)
    (hs : ValidState s) :
    ValidState (apply_interaction s ty other sentiment intensity now) := by
  intro t
  rw [get_apply_interaction]
  exact valid_apply_influence s (interaction_trait_impacts ty sentiment intensity) 1 now hs t

theorem valid_apply_incident (s : PersonalityState) (ty : String)
    (impact : ℚ) (now : ℕ) (hs : ValidState s) :
    ValidState (apply_incident s ty impact now) := by
  intro t
  rw [get_apply_incident]
  exact valid_apply_influence s (incident_trait_impacts ty impact) 2 now hs t

set_option maxHeartbeats 8000000 in
/-- Field-level characterization of `apply_time_drift`: the eight unit
traits step toward the baseline at rate `reversion_rate * hours`, the
jitter draws touch exactly humor_tendency and analytical_depth (clamped),
the other two bipolar traits and the interaction count are unchanged. -/
theorem apply_time_drift_fields (s baseline : PersonalityState)
    (hours jh ja : ℚ) (now : ℕ) :
    (apply_time_drift s baseline hours jh ja now).energy_level =
      s.energy_level + (baseline.energy_level - s.energy_level) * (reversion_rate * hours) ∧
    (apply_time_drift s baseline hours jh ja now).formality =
      s.formality + (baseline.formality - s.formality) * (reversion_rate * hours) ∧
    (apply_time_drift s baseline hours jh ja now).verbosity =
      s.verbosity + (baseline.verbosity - s.verbosity) * (reversion_rate * hours) ∧
    (apply_time_drift s baseline hours jh ja now).chaos_tolerance =
      s.chaos_tolerance + (baseline.chaos_tolerance - s.chaos_tolerance) * (reversion_rate * hours) ∧
    (apply_time_drift s baseline hours jh ja now).positivity =
      s.positivity + (baseline.positivity - s.positivity) * (reversion_rate * hours) ∧
    (apply_time_drift s baseline hours jh ja now).extroversion =
      s.extroversion + (baseline.extroversion - s.extroversion) * (reversion_rate * hours) ∧
    (apply_time_drift s baseline hours jh ja now).trust_level =
      s.trust_level + (baseline.trust_level - s.trust_level) * (reversion_rate * hours) ∧
    (apply_time_drift s baseline hours jh ja now).conflict_avoidance =
      s.conflict_avoidance + (baseline.conflict_avoidance - s.conflict_avoidance) * (reversion_rate * hours) ∧
    (apply_time_drift s baseline hours jh ja now).aggression = s.aggression ∧
    (apply_time_drift s baseline hours jh ja now).supportiveness = s.supportiveness ∧
    (apply_time_drift s baseline hours jh ja now).humor_tendency =
      clampBi (s.humor_tendency + jh) ∧
    (apply_time_drift s baseline hours jh ja now).analytical_depth =
      clampBi (s.analytical_depth + ja) ∧
    (apply_time_drift s baseline hours jh ja now).total_interactions =
      s.total_interactions :=
  ⟨rfl, rfl, rfl, rfl, rfl, rfl, rfl, rfl, rfl, rfl, rfl, rfl, rfl⟩

theorem unit_drift_in_range (v w r : ℚ) (hv0 : 0 ≤ v) (hv1 : v ≤ 1)
    (hw0 : 0 ≤ w) (hw1 : w ≤ 1) (hr0 : 0 ≤ r) (hr1 : r ≤ 1) :
    0 ≤ v + (w - v) * r ∧ v + (w - v) * r ≤ 1 := by
  constructor <;> nlinarith

theorem clampBi_in_range (v : ℚ) : -1 ≤ clampBi v ∧ clampBi v ≤ 1 :=
  ⟨le_max_left _ _, max_le (by norm_num) (min_le_left _ _)⟩

theorem valid_apply_time_drift (s baseline : PersonalityState)
    (hours jh ja : ℚ) (now : ℕ) (hs : ValidState s) (hb : ValidState baseline)
    (h0 : 0 ≤ hours) (h1 : hours ≤ 1000) :
    ValidState (apply_time_drift s baseline hours jh ja now) := by
  have hrate0 : 0 ≤ reversion_rate * hours := by
    unfold reversion_rate; positivity
  have hrate1 : reversion_rate * hours ≤ 1 := by
    unfold reversion_rate; nlinarith
  obtain ⟨he, hf, hv, hc, hp, hx, ht, hca, hag, hsu, hhu, han, -⟩ :=
    apply_time_drift_fields s baseline hours jh ja now
  intro t
  cases t with
  | energy_level =>
      show 0 ≤ _ ∧ _ ≤ 1
      rw [show (apply_time_drift s baseline hours jh ja now).get .energy_level =
        (apply_time_drift s baseline hours jh ja now).energy_level from rfl, he]
      obtain ⟨a1, a2⟩ := hs .energy_level
      obtain ⟨b1, b2⟩ := hb .energy_level
      exact unit_drift_in_range _ _ _ a1 a2 b1 b2 hrate0 hrate1
  | formality =>
      show 0 ≤ _ ∧ _ ≤ 1
      rw [show (apply_time_drift s baseline hours jh ja now).get .formality =
        (apply_time_drift s baseline hours jh ja now).formality from rfl, hf]
      obtain ⟨a1, a2⟩ := hs .formality
      obtain ⟨b1, b2⟩ := hb .formality
      exact unit_drift_in_range _ _ _ a1 a2 b1 b2 hrate0 hrate1
  | verbosity =>
      show 0 ≤ _ ∧ _ ≤ 1
      rw [show (apply_time_drift s baseline hours jh ja now).get .verbosity =
        (apply_time_drift s baseline hours jh ja now).verbosity from rfl, hv]
      obtain ⟨a1, a2⟩ := hs .verbosity
      obtain ⟨b1, b2⟩ := hb .verbosity
      exact unit_drift_in_range _ _ _ a1 a2 b1 b2 hrate0 hrate1
  | chaos_tolerance =>
      show 0 ≤ _ ∧ _ ≤ 1
      rw [show (apply_time_drift s baseline hours jh ja now).get .chaos_tolerance =
        (apply_time_drift s baseline hours jh ja now).chaos_tolerance from rfl, hc]
      obtain ⟨a1, a2⟩ := hs .chaos_tolerance
      obtain ⟨b1, b2⟩ := hb .chaos_tolerance
      exact unit_drift_in_range _ _ _ a1 a2 b1 b2 hrate0 hrate1
  | positivity =>
      show 0 ≤ _ ∧ _ ≤ 1
      rw [show (apply_time_drift s baseline hours jh ja now).get .positivity =
        (apply_time_drift s baseline hours jh ja now).positivity from rfl, hp]
      obtain ⟨a1, a2⟩ := hs .positivity
      obtain ⟨b1, b2⟩ := hb .positivity
      exact unit_drift_in_range _ _ _ a1 a2 b1 b2 hrate0 hrate1
  | extroversion =>
      show 0 ≤ _ ∧ _ ≤ 1
      rw [show (apply_time_drift s baseline hours jh ja now).get .extroversion =
        (apply_time_drift s baseline hours jh ja now).extroversion from rfl, hx]
      obtain ⟨a1, a2⟩ := hs .extroversion
      obtain ⟨b1, b2⟩ := hb .extroversion
      exact unit_drift_in_range _ _ _ a1 a2 b1 b2 hrate0 hrate1
  | trust_level =>
      show 0 ≤ _ ∧ _ ≤ 1
      rw [show (apply_time_drift s baseline hours jh ja now).get .trust_level =
        (apply_time_drift s baseline hours jh ja now).trust_level from rfl, ht]
      obtain ⟨a1, a2⟩ := hs .trust_level
      obtain ⟨b1, b2⟩ := hb .trust_level
      exact unit_drift_in_range _ _ _ a1 a2 b1 b2 hrate0 hrate1
  | conflict_avoidance =>
      show 0 ≤ _ ∧ _ ≤ 1
      rw [show (apply_time_drift s baseline hours jh ja now).get .conflict_avoidance =
        (apply_time_drift s baseline hours jh ja now).conflict_avoidance from rfl, hca]
      obtain ⟨a1, a2⟩ := hs .conflict_avoidance
      obtain ⟨b1, b2⟩ := hb .conflict_avoidance
      exact unit_drift_in_range _ _ _ a1 a2 b1 b2 hrate0 hrate1
  | aggression =>
      show -1 ≤ _ ∧ _ ≤ 1
      rw [show (apply_time_drift s baseline hours jh ja now).get .aggression =
        (apply_time_drift s baseline hours jh ja now).aggression from rfl, hag]
      exact hs .aggression
  | supportiveness =>
      show -1 ≤ _ ∧ _ ≤ 1
      rw [show (apply_time_drift s baseline hours jh ja now).get .supportiveness =
        (apply_time_drift s baseline hours jh ja now).supportiveness from rfl, hsu]
      exact hs .supportiveness
  | humor_tendency =>
      show -1 ≤ _ ∧ _ ≤ 1
      rw [show (apply_time_drift s baseline hours jh ja now).get .humor_tendency =
        (apply_time_drift s baseline hours jh ja now).humor_tendency from rfl, hhu]
      exact clampBi_in_range _
  | analytical_depth =>
      show -1 ≤ _ ∧ _ ≤ 1
      rw [show (apply_time_drift s baseline hours jh ja now).get .analytical_depth =
        (apply_time_drift s baseline hours jh ja now).analytical_depth from rfl, han]
      exact clampBi_in_range _

theorem valid_stepDriftOp (baseline s : PersonalityState) (op : DriftOp)
    (hb : ValidState baseline) (hs : ValidState s) (hop : DriftOpOK op) :
    ValidState (stepDriftOp baseline s op) := by
  cases op with
  | interaction ty other sentiment intensity now =>
      exact valid_apply_interaction s ty other sentiment intensity now hs
  | incident ty impact now => exact valid_apply_incident s ty impact now hs
  | timeDrift hours jh ja now =>
      exact valid_apply_time_drift s baseline hours jh ja now hs hb hop.1 hop.2

theorem valid_runDriftOps (baseline : PersonalityState) (ops : List DriftOp)
    (s : PersonalityState) (hb : ValidState baseline) (hs : ValidState s)
    (hops : ∀ op ∈ ops, DriftOpOK op) :
    ValidState (runDriftOps baseline ops s) := by
  induction ops generalizing s with
  | nil => exact hs
  | cons hd tl ih =>
      exact ih _
        (valid_stepDriftOp baseline s hd hb hs (hops hd (List.mem_cons_self _ _)))
        (fun op hop => hops op (List.mem_cons_of_mem _ hop))

theorem valid_default_state (agent_id : String) (t0 : ℕ) :
    ValidState (create_default_state agent_id t0) := by
  intro t
  cases t <;>
    exact ⟨by norm_num [create_default_state, PersonalityState.get],
           by norm_num [create_default_state, PersonalityState.get]⟩

/-! ## Supporting lemmas for the moderation engine -/

theorem lookup_updateEntry (l : List (String × AgentBehaviorScore))
    (agent_id : String) (f : AgentBehaviorScore → AgentBehaviorScore) :
    (updateEntry l agent_id f).lookup agent_id = (l.lookup agent_id).map f := by
  induction l with
  | nil => rfl
  | cons hd tl ih =>
      obtain ⟨k, v⟩ := hd
      by_cases hk : k = agent_id
      · subst hk
        have hstep : updateEntry ((k, v) :: tl) k f = (k, f v) :: updateEntry tl k f := by
          simp [updateEntry]
        rw [hstep]
        simp [List.lookup]
      · have hne : (k == agent_id) = false := beq_eq_false_iff_ne.mpr hk
        have hne' : (agent_id == k) = false := beq_eq_false_iff_ne.mpr (Ne.symm hk)
        have hstep : updateEntry ((k, v) :: tl) agent_id f =
            (k, v) :: updateEntry tl agent_id f := by
          simp [updateEntry, hne, hk]
        rw [hstep]
        simpa [List.lookup, hne'] using ih

theorem ensureScore_of_present (l : List (String × AgentBehaviorScore))
    (agent_id : String) (h : (l.lookup agent_id).isSome = true) :
    ensureScore l agent_id = l := by
  unfold ensureScore
  rw [if_pos h]

theorem lookup_update_agent_score_cooldown (st : ModeratorState)
    (agent_id : String) (chaos quality : ℚ) (sc : AgentBehaviorScore)
    (hs : st.agent_scores.lookup agent_id = some sc) :
    ∃ sc', (update_agent_score st agent_id chaos quality).agent_scores.lookup agent_id =
        some sc' ∧ sc'.cooldown_until = sc.cooldown_until := by
  have hsome : (st.agent_scores.lookup agent_id).isSome = true := by rw [hs]; rfl
  refine ⟨{ sc with
      chaos_score := sc.chaos_score * (7 / 10) + chaos * (3 / 10)
      quality_score := sc.quality_score * (7 / 10) + quality * (3 / 10) }, ?_, rfl⟩
  have h1 : (update_agent_score st agent_id chaos quality).agent_scores =
      updateEntry (ensureScore st.agent_scores agent_id) agent_id (fun sc =>
        { sc with
          chaos_score := sc.chaos_score * (7 / 10) + chaos * (3 / 10)
          quality_score := sc.quality_score * (7 / 10) + quality * (3 / 10) }) := rfl
  rw [h1, ensureScore_of_present _ _ hsome, lookup_updateEntry, hs]
  rfl

/-- C2 counterexample: content matching a hard-blocked pattern is
REJECTed even while the agent is in cooldown (the blocked-pattern check
precedes the cooldown check), so the claim that every moderation call
during cooldown returns HOLD fails at this input.  The state has agent
"a" with cooldown-expiry 100 and the current time is 5 < 100. -/
theorem C2_blocked_content_rejected_during_cooldown :
    ((cooldownState.agent_scores.lookup "a").map AgentBehaviorScore.cooldown_until =
      some (some 100)) ∧
    (5 : ℕ) < 100 ∧
    (moderate_content cooldownState 5 "@everyone hi" "a").1.action = ModerationAction.reject ∧
    (moderate_content cooldownState 5 "@everyone hi" "a").1.action ≠ ModerationAction.hold := by
  with_unfolding_all decide

/-- C2 (amended): for every moderator state, time, agent and content
string that matches no hard-blocked pattern, if the agent has a behavior
score with a non-null cooldown-expiry and the current time is earlier
than it, then `moderate_content` returns action HOLD. -/
theorem C2_cooldown_forces_hold (st : ModeratorState) (now : ℕ)
    (content agent_id : String) (sc : AgentBehaviorScore) (t : ℕ)
    (hs : st.agent_scores.lookup agent_id = some sc)
    (hcd : sc.cooldown_until = some t)
    (hnow : now < t)
    (hnb : matchesBlocked content = false) :
    (moderate_content st now content agent_id).1.action = ModerationAction.hold := by
  obtain ⟨sc', hl, hcd'⟩ :=
    lookup_update_agent_score_cooldown st agent_id
      (calculate_chaos_score content) (calculate_quality_score content) sc hs
  simp only [moderate_content, hnb, Bool.false_eq_true, if_false]
  rw [hl]
  simp [hcd', hcd, hnow]

/-- C2 witness: a concrete in-cooldown agent and unblocked content on
which the amended theorem applies. -/
theorem C2_cooldown_forces_hold_witness :
    (moderate_content cooldownState 5 "hello there friends" "a").1.action =
      ModerationAction.hold :=
  C2_cooldown_forces_hold cooldownState 5 "hello there friends" "a"
    { agent_id := "a", chaos_score := 50, quality_score := 50,
      warning_count := 1, last_warning := some 0, cooldown_until := some 100 }
    100 (by decide) rfl (by decide) (by decide)

/-- C3: the repository intends `"rm -rf / please"` to be hard-blocked
(pattern comment "Dangerous commands"), and the spec example demands
action REJECT with rating BLOCKED, but the trailing word boundary of
`\b(rm\s+-rf\s+/|format\s+c:)\b` cannot match after the slash when a
space (or the string end) follows, so the pattern misses the example
while still catching `"rm -rf /home"`.  The call therefore proceeds to
the normal pipeline and returns MODIFY with rating SAFE and the content
unchanged. -/
theorem C3_blocked_example_not_rejected :
    matchesBlocked "rm -rf /home" = true ∧
    matchesBlocked "rm -rf / please" = false ∧
    (moderate_content initialModeratorState 0 "rm -rf / please" "agent1").1 =
      { action := ModerationAction.modify, rating := ContentRating.safe,
        modified_content := some "rm -rf / please", reasons := [],
        suggestions := [] } := by
  with_unfolding_all decide

/-- C10: a REJECT caused by a hard-blocked pattern returns before any
state mutation, leaving the score map and the global chaos level exactly
as before the call, while every non-blocked call (including one held
during cooldown) passes through `_update_agent_score`, which refreshes
the rolling scores and the global chaos level. -/
theorem C10_reject_is_pure_nonblocked_updates (st : ModeratorState)
    (now : ℕ) (content agent_id : String) :
    (matchesBlocked content = true →
      (moderate_content st now content agent_id).2 = st) ∧
    (matchesBlocked content = false →
      (moderate_content st now content agent_id).2 =
        update_agent_score st agent_id (calculate_chaos_score content)
          (calculate_quality_score content)) := by
  refine ⟨fun h => ?_, fun h => ?_⟩
  · simp only [moderate_content, h, if_true]
  · simp only [moderate_content, h, Bool.false_eq_true, if_false]
    split <;> rfl

/-- C10 witness: the blocked part at mass-ping content, the non-blocked
part at plain content. -/
theorem C10_reject_is_pure_nonblocked_updates_witness :
    (moderate_content initialModeratorState 0 "@everyone hi" "a").2 =
      initialModeratorState ∧
    (moderate_content initialModeratorState 0 "hello there friends" "a").2 =
      update_agent_score initialModeratorState "a"
        (calculate_chaos_score "hello there friends")
        (calculate_quality_score "hello there friends") :=
  ⟨(C10_reject_is_pure_nonblocked_updates initialModeratorState 0 "@everyone hi" "a").1
      (by decide),
   (C10_reject_is_pure_nonblocked_updates initialModeratorState 0 "hello there friends" "a").2
      (by decide)⟩

/-! ## Supporting lemmas for the memory store -/

theorem getLast?_drop_of_lt {α : Type _} :
    ∀ (n : ℕ) (l : List α), n < l.length → (l.drop n).getLast? = l.getLast? := by
  intro n l
  induction l generalizing n with
  | nil => intro h; simp at h
  | cons x t ih =>
      intro h
      cases n with
      | zero => rfl
      | succ m =>
          have hm : m < t.length := by simpa using h
          rw [List.drop_succ_cons, ih m hm]
          cases t with
          | nil => simp at hm
          | cons y u => rw [List.getLast?_cons_cons]

theorem lookup_map_overwrite (key : String) (v : RelationshipMemory) :
    ∀ (store : List (String × RelationshipMemory)),
      (store.lookup key).isSome = true →
      ((store.map fun p => if p.1 == key then (key, v) else p).lookup key) = some v := by
  intro store
  induction store with
  | nil => intro h; simp [List.lookup] at h
  | cons hd tl ih =>
      obtain ⟨k, w⟩ := hd
      intro h
      by_cases hk : k = key
      · have heq : (k == key) = true := beq_iff_eq.mpr hk
        have hstep : ((k, w) :: tl).map (fun p => if p.1 == key then (key, v) else p) =
            (key, v) :: tl.map (fun p => if p.1 == key then (key, v) else p) := by
          simp [heq, hk]
        rw [hstep]
        simp [List.lookup]
      · have hne : (k == key) = false := beq_eq_false_iff_ne.mpr hk
        have hne' : (key == k) = false := beq_eq_false_iff_ne.mpr (Ne.symm hk)
        have htl : (tl.lookup key).isSome = true := by
          simpa [List.lookup, hne'] using h
        have hstep : ((k, w) :: tl).map (fun p => if p.1 == key then (key, v) else p) =
            (k, w) :: tl.map (fun p => if p.1 == key then (key, v) else p) := by
          simp [hne, hk]
        rw [hstep]
        simpa [List.lookup, hne'] using ih htl

theorem lookup_append_single (key : String) (v : RelationshipMemory) :
    ∀ (store : List (String × RelationshipMemory)),
      store.lookup key = none →
      ((store ++ [(key, v)]).lookup key) = some v := by
  intro store
  induction store with
  | nil => intro _; simp [List.lookup]
  | cons hd tl ih =>
      obtain ⟨k, w⟩ := hd
      intro h
      by_cases hk : key = k
      · subst hk
        simp [List.lookup] at h
      · have hne : (key == k) = false := beq_eq_false_iff_ne.mpr hk
        have htl : tl.lookup key = none := by simpa [List.lookup, hne] using h
        simpa [List.lookup, hne] using ih htl

theorem lookup_setRelFile (store : List (String × RelationshipMemory))
    (key : String) (v : RelationshipMemory) :
    (setRelFile store key v).lookup key = some v := by
  unfold setRelFile
  cases h : (store.lookup key) with
  | none => rw [if_neg (by simp [h])]; exact lookup_append_single key v store h
  | some w =>
      rw [if_pos (by simp [h])]
      exact lookup_map_overwrite key v store (by simp [h])

theorem updateRelRecord_affinity_history (r : RelationshipMemory) (s : ℚ)
    (inc joke : Option String) (now : ℕ) :
    (updateRelRecord r s inc joke now).affinity_history =
      (let hist0 := r.affinity_history ++
        [(now, clampBi ((((r.affinity_history.getLast?).map Prod.snd).getD 0) + s * (1 / 10)))]
       if 100 < hist0.length then hist0.drop (hist0.length - 100) else hist0) := by
  unfold updateRelRecord
  rcases inc with - | si <;> rcases joke with - | j <;> dsimp only <;>
    (first
     | rfl
     | simp only [apply_ite RelationshipMemory.affinity_history, ite_self])

/-- C5: the repository intends `find_incident` to fall back to a content
scan (`grep -l -i query <dir>/*.md`), but the command is run through
`subprocess.run` with an argument list and no shell, so the glob pattern
reaches grep as a literal file name that never exists and the fallback
can never return a match.  Concretely, incident `inc_001` mentions
"docker" in its stored content, "docker" is not a stored incident id,
and `find_incident` still returns none. -/
theorem C5_content_scan_fallback_returns_none :
    containsCI "docker" incidentFileDocker = true ∧
    incidentDirDocker.lookup ("docker" ++ ".md") = none ∧
    find_incident incidentDirDocker "docker" = none := by
  decide

/-- C6: `update_relationship` appends exactly one entry to the affinity
time series of the canonical pair record: the stored record afterwards
ends with `(now, clamp(old + sentiment * 0.1, -1, 1))` where `old` is the
affinity of the previous last entry (0 for an empty history), and the
series grows by one entry up to the 100-entry ring bound. -/
theorem C6_update_relationship_appends_clamped_affinity
    (store : List (String × RelationshipMemory)) (a b : String) (s : ℚ)
    (inc joke : Option String) (now : ℕ) :
    ∃ r', get_relationship (update_relationship store a b s inc joke now) a b = some r' ∧
      r'.affinity_history.getLast? =
        some (now, clampBi
          ((((((store.lookup (rel_id a b)).getD (newRelationship a b)).affinity_history.getLast?).map
            Prod.snd).getD 0) + s * (1 / 10))) ∧
      r'.affinity_history.length =
        min (((store.lookup (rel_id a b)).getD
          (newRelationship a b)).affinity_history.length + 1) 100 := by
  refine ⟨updateRelRecord ((store.lookup (rel_id a b)).getD (newRelationship a b))
      s inc joke now, ?_, ?_, ?_⟩
  · exact lookup_setRelFile store (rel_id a b) _
  · rw [updateRelRecord_affinity_history]
    dsimp only
    split
    · next h =>
        rw [getLast?_drop_of_lt _ _ (by simp at h ⊢; omega)]
        exact List.getLast?_concat _
    · exact List.getLast?_concat _
  · rw [updateRelRecord_affinity_history]
    dsimp only
    split
    · next h =>
        simp only [List.length_drop, List.length_append, List.length_cons,
          List.length_nil] at h ⊢
        omega
    · next h =>
        simp only [List.length_append, List.length_cons, List.length_nil] at h ⊢
        omega

theorem rel_id_comm (a b : String) : rel_id a b = rel_id b a := by
  unfold rel_id
  rcases lt_trichotomy a b with h | h | h
  · rw [if_neg (asymm h), if_pos h]
  · subst h; rfl
  · rw [if_pos h, if_neg (asymm h)]

/-- C7: after any sequence of `update_relationship` calls on the empty
registry, `get_relationship` returns the same canonical record for the
pair in either order, because both orders resolve to the key obtained by
sorting the two agent ids. -/
theorem C7_get_relationship_symmetric (calls : List RelUpdateCall) (a b : String) :
    get_relationship (runRelUpdates calls) a b =
      get_relationship (runRelUpdates calls) b a := by
  unfold get_relationship
  rw [rel_id_comm]

/-! ## Response decision theorems -/

/-- C9: whenever `should_agent_respond` returns (the Python code raises
IndexError only on an empty peak-hours list), the reported probability is
exactly the configured base response probability times the interest,
relationship and time-of-day modifiers, clamped to [0, 1]; in particular
it lies in [0, 1]. -/
theorem C9_response_probability_clamped_product (p : AgentPersonality)
    (ctx : ResponseContext) (r : ℚ) (b : Bool) (q : ℚ)
    (h : should_agent_respond p ctx r = some (b, q)) :
    (∃ tm, calculate_time_modifier p.behavior.peak_hours (ctx.current_hour.getD 12) =
        some tm ∧
      q = min 1 (max 0 (p.behavior.response_probability *
        calculate_interest_modifier p.interests ctx.topics ctx.keywords *
        calculate_relationship_modifier p.relationships ctx.author_agent_id * tm))) ∧
    0 ≤ q ∧ q ≤ 1 := by
  unfold should_agent_respond at h
  cases htm : calculate_time_modifier p.behavior.peak_hours (ctx.current_hour.getD 12) with
  | none => rw [htm] at h; exact absurd h (by simp)
  | some tm =>
      rw [htm] at h
      simp only [Option.some_inj, Prod.mk.injEq] at h
      obtain ⟨-, hq⟩ := h
      subst hq
      refine ⟨⟨tm, rfl, rfl⟩, ?_, min_le_left _ _⟩
      exact le_min (by norm_num) (le_max_left 0 _)

/-- C9 witness: the configured witness personality at hour 12 with draw
1/2 yields probability 13/20 = clamp(0.5 × 1 × 1 × 1.3). -/
theorem C9_response_probability_clamped_product_witness :
    (∃ tm, calculate_time_modifier personalityW.behavior.peak_hours
        (contextW.current_hour.getD 12) = some tm ∧
      (13 / 20 : ℚ) = min 1 (max 0 (personalityW.behavior.response_probability *
        calculate_interest_modifier personalityW.interests contextW.topics contextW.keywords *
        calculate_relationship_modifier personalityW.relationships contextW.author_agent_id * tm))) ∧
    (0 : ℚ) ≤ 13 / 20 ∧ (13 / 20 : ℚ) ≤ 1 :=
  C9_response_probability_clamped_product personalityW contextW (1 / 2) true (13 / 20)
    (by with_unfolding_all decide)

/-! ## Drift-engine claim theorems -/

theorem clamp01_lt_of_lt (v c : ℚ) (hv : v < 1) (hc : 0 < c) :
    v < clamp01 (v + c) := by
  unfold clamp01
  have h1 : v < min 1 (v + c) := lt_min hv (by linarith)
  exact h1.trans_le (le_max_right _ _)

theorem clampBi_lt_of_lt (v c : ℚ) (hv : v < 1) (hc : 0 < c) :
    v < clampBi (v + c) := by
  unfold clampBi
  have h1 : v < min 1 (v + c) := lt_min hv (by linarith)
  exact h1.trans_le (le_max_right _ _)

theorem total_applyImpacts (impacts : List (Trait × ℚ)) (s : PersonalityState)
    (mult : ℚ) : (applyImpacts s impacts mult).total_interactions =
      s.total_interactions := by
  induction impacts generalizing s with
  | nil => rfl
  | cons hd tl ih =>
      have hset : ∀ (st : PersonalityState) (t : Trait) (v : ℚ),
          (st.set t v).total_interactions = st.total_interactions := by
        intro st t v; cases t <;> rfl
      rw [show applyImpacts s (hd :: tl) mult =
        applyImpacts (s.set hd.1 (clampTrait hd.1
          (s.get hd.1 + hd.2 * mult * (1 - stability_factor * (1 / 2))))) tl mult from rfl]
      rw [ih, hset]

theorem total_apply_interaction (s : PersonalityState) (ty : String)
    (other : Option String) (sentiment intensity : ℚ) (now : ℕ) :
    (apply_interaction s ty other sentiment intensity now).total_interactions =
      s.total_interactions + 1 := by
  simp only [apply_interaction]
  split
  · show (applyImpacts s _ 1).total_interactions + 1 = s.total_interactions + 1
    rw [total_applyImpacts]
  · show (applyImpacts s _ 1).total_interactions + 1 = s.total_interactions + 1
    rw [total_applyImpacts]

/-- C8 (amended): the fixed collaboration example strictly increases
supportiveness, trust and positivity whenever the prior value of each is
strictly below its upper bound 1 (a trait already at the bound stays
clamped there), and always increments the interaction count by exactly
one. -/
theorem C8_collaboration_strictly_increases (s : PersonalityState)
    (other : Option String) (now : ℕ)
    (hsup : s.supportiveness < 1) (htru : s.trust_level < 1)
    (hpos : s.positivity < 1) :
    s.supportiveness <
        (apply_interaction s "collaboration" other (4 / 5) (7 / 10) now).supportiveness ∧
    s.trust_level <
        (apply_interaction s "collaboration" other (4 / 5) (7 / 10) now).trust_level ∧
    s.positivity <
        (apply_interaction s "collaboration" other (4 / 5) (7 / 10) now).positivity ∧
    (apply_interaction s "collaboration" other (4 / 5) (7 / 10) now).total_interactions =
      s.total_interactions + 1 := by
  have hget := get_apply_interaction s "collaboration" other (4 / 5) (7 / 10) now
  refine ⟨?_, ?_, ?_, total_apply_interaction s "collaboration" other (4 / 5) (7 / 10) now⟩
  · have h := hget .supportiveness
    have h2 : (apply_influence s
        (interaction_trait_impacts "collaboration" (4 / 5) (7 / 10)) 1 now).get .supportiveness =
        clampBi (s.supportiveness +
          (7 / 10) * (1 / 10) * 1 * (1 - stability_factor * (1 / 2))) := rfl
    show s.supportiveness <
      (apply_interaction s "collaboration" other (4 / 5) (7 / 10) now).get .supportiveness
    rw [h, h2]
    exact clampBi_lt_of_lt _ _ hsup (by norm_num [stability_factor])
  · have h := hget .trust_level
    have h2 : (apply_influence s
        (interaction_trait_impacts "collaboration" (4 / 5) (7 / 10)) 1 now).get .trust_level =
        clamp01 (s.trust_level +
          (7 / 10) * (1 / 20) * 1 * (1 - stability_factor * (1 / 2))) := rfl
    show s.trust_level <
      (apply_interaction s "collaboration" other (4 / 5) (7 / 10) now).get .trust_level
    rw [h, h2]
    exact clamp01_lt_of_lt _ _ htru (by norm_num [stability_factor])
  · have h := hget .positivity
    have h2 : (apply_influence s
        (interaction_trait_impacts "collaboration" (4 / 5) (7 / 10)) 1 now).get .positivity =
        clamp01 (s.positivity +
          (4 / 5) * (7 / 10) * (1 / 20) * 1 * (1 - stability_factor * (1 / 2))) := rfl
    show s.positivity <
      (apply_interaction s "collaboration" other (4 / 5) (7 / 10) now).get .positivity
    rw [h, h2]
    exact clamp01_lt_of_lt _ _ hpos (by norm_num [stability_factor])

/-- C8 witness: the default state (supportiveness 0, trust 0.5,
positivity 0.5) satisfies the bound hypotheses. -/
theorem C8_collaboration_strictly_increases_witness :
    (create_default_state "agent1" 0).supportiveness <
        (apply_interaction (create_default_state "agent1" 0) "collaboration"
          (some "agent2") (4 / 5) (7 / 10) 1).supportiveness ∧
    (create_default_state "agent1" 0).trust_level <
        (apply_interaction (create_default_state "agent1" 0) "collaboration"
          (some "agent2") (4 / 5) (7 / 10) 1).trust_level ∧
    (create_default_state "agent1" 0).positivity <
        (apply_interaction (create_default_state "agent1" 0) "collaboration"
          (some "agent2") (4 / 5) (7 / 10) 1).positivity ∧
    (apply_interaction (create_default_state "agent1" 0) "collaboration"
      (some "agent2") (4 / 5) (7 / 10) 1).total_interactions =
      (create_default_state "agent1" 0).total_interactions + 1 :=
  C8_collaboration_strictly_increases (create_default_state "agent1" 0)
    (some "agent2") 1 (by with_unfolding_all decide) (by with_unfolding_all decide)
    (by with_unfolding_all decide)

/-- C8 counterexample: with the prior trust_level at its bound 1.0, the
clamp keeps it at 1.0, so the claimed strict increase fails for this
prior state (which the claim quantifies over). -/
theorem C8_no_strict_increase_at_bound :
    ¬ (stateTrustAtBound.trust_level <
        (apply_interaction stateTrustAtBound "collaboration" (some "agent2")
          (4 / 5) (7 / 10) 1).trust_level) := by
  with_unfolding_all decide

/-- C4 (amended): `applyTimeDrift` moves only the eight unit-range traits
(energy, formality, verbosity, chaos-tolerance, positivity, extroversion,
trust, conflict-avoidance) a step of fraction `reversionRate × hoursPassed`
toward the stored baseline; the four bipolar traits are not drifted toward
the baseline at all, and the jitter draws (modelling
`random.gauss(0, 0.0005 × hoursPassed)`) are added, with clamping, to
humor-tendency and analytical-depth only.  The interaction count is
unchanged. -/
theorem C4_time_drift_unit_traits_only (s baseline : PersonalityState)
    (hours jh ja : ℚ) (now : ℕ) :
    (apply_time_drift s baseline hours jh ja now).energy_level =
      s.energy_level + (baseline.energy_level - s.energy_level) * (reversion_rate * hours) ∧
    (apply_time_drift s baseline hours jh ja now).formality =
      s.formality + (baseline.formality - s.formality) * (reversion_rate * hours) ∧
    (apply_time_drift s baseline hours jh ja now).verbosity =
      s.verbosity + (baseline.verbosity - s.verbosity) * (reversion_rate * hours) ∧
    (apply_time_drift s baseline hours jh ja now).chaos_tolerance =
      s.chaos_tolerance + (baseline.chaos_tolerance - s.chaos_tolerance) * (reversion_rate * hours) ∧
    (apply_time_drift s baseline hours jh ja now).positivity =
      s.positivity + (baseline.positivity - s.positivity) * (reversion_rate * hours) ∧
    (apply_time_drift s baseline hours jh ja now).extroversion =
      s.extroversion + (baseline.extroversion - s.extroversion) * (reversion_rate * hours) ∧
    (apply_time_drift s baseline hours jh ja now).trust_level =
      s.trust_level + (baseline.trust_level - s.trust_level) * (reversion_rate * hours) ∧
    (apply_time_drift s baseline hours jh ja now).conflict_avoidance =
      s.conflict_avoidance + (baseline.conflict_avoidance - s.conflict_avoidance) * (reversion_rate * hours) ∧
    (apply_time_drift s baseline hours jh ja now).aggression = s.aggression ∧
    (apply_time_drift s baseline hours jh ja now).supportiveness = s.supportiveness ∧
    (apply_time_drift s baseline hours jh ja now).humor_tendency =
      clampBi (s.humor_tendency + jh) ∧
    (apply_time_drift s baseline hours jh ja now).analytical_depth =
      clampBi (s.analytical_depth + ja) ∧
    (apply_time_drift s baseline hours jh ja now).total_interactions =
      s.total_interactions :=
  apply_time_drift_fields s baseline hours jh ja now

/-- C4 counterexample: humor_tendency (a bipolar trait) is not moved
toward the baseline: with prior value 0.5, default baseline 0 and one
hour (zero jitter draws), the code leaves it at 0.5 while the claim
demands the reversion step to 0.4995. -/
theorem C4_bipolar_trait_not_reverted :
    (apply_time_drift stateHumorHalf (create_default_state "agent1" 0)
        1 0 0 2).humor_tendency ≠
      stateHumorHalf.humor_tendency +
        ((create_default_state "agent1" 0).humor_tendency -
          stateHumorHalf.humor_tendency) * (reversion_rate * 1) := by
  with_unfolding_all decide

/-- C1 (amended): starting from the lazily created default state, every
sequence of drift operations keeps each unit trait in [0, 1] and each
bipolar trait in [-1, 1] after every operation, provided the inputs are
in the claimed ranges and additionally every time-drift step satisfies
`reversionRate × hoursPassed ≤ 1` (that is `hoursPassed ≤ 1000`); without
that bound the unclamped baseline-reversion step of `_drift_toward`
overshoots.  The baseline state is any stored baseline with traits in
range (the default when absent). -/
theorem C1_drift_ops_preserve_trait_ranges (baseline : PersonalityState)
    (agent_id : String) (t0 : ℕ) (ops : List DriftOp) (n : ℕ)
    (hb : ValidState baseline) (hops : ∀ op ∈ ops, DriftOpOK op) :
    ValidState (runDriftOps baseline (ops.take n) (create_default_state agent_id t0)) :=
  valid_runDriftOps baseline (ops.take n) _ hb (valid_default_state agent_id t0)
    (fun op hop => hops op (List.mem_of_mem_take hop))

/-- C1 witness: a collaboration interaction followed by a 24-hour time
drift, from the default state and baseline. -/
theorem C1_drift_ops_preserve_trait_ranges_witness :
    ValidState (create_default_state "agent1" 0) ∧
    (∀ op ∈ opsInRange, DriftOpOK op) ∧
    ValidState (runDriftOps (create_default_state "agent1" 0) (opsInRange.take 2)
      (create_default_state "agent1" 0)) :=
  ⟨by with_unfolding_all decide, by with_unfolding_all decide,
   C1_drift_ops_preserve_trait_ranges (create_default_state "agent1" 0) "agent1" 0
     opsInRange 2 (by with_unfolding_all decide) (by with_unfolding_all decide)⟩

/-- C1 counterexample: the claim allows any `hoursPassed ≥ 0`, but after
a full-impact system crash (trust_level 0.395) a time drift of 10000
hours multiplies the distance to the baseline by 10 without clamping,
driving trust_level to 1.445, outside its declared range [0, 1]. -/
theorem C1_time_drift_overshoots_range :
    (0 : ℚ) ≤ 10000 ∧
    1 < (runDriftOps (create_default_state "agent1" 0) opsOvershoot
      (create_default_state "agent1" 0)).trust_level := by
  with_unfolding_all decide

end AgentSocial
